import Mathlib

/-!
Shallow embedding of the machineSite metrics server core
(`server/db.js`, `server/metricsWriter.js`, `server/routes/machines.js`,
`server/routes/*` data routes, SQL schema in `server/migrations`).

Machine numbers (JS doubles used on exact integral/decimal data) are
modelled as `ℚ`; millisecond epoch timestamps as `Int`.  SQL tables are
modelled as insertion-ordered lists of row structures; `ORDER BY` clauses
are applied with `List.mergeSort`; `INSERT OR REPLACE` under a `UNIQUE`
column is modelled as filter-out-the-key then append.  Fallible calls
(SQL constraint violations, better-sqlite3 parameter-binding errors)
return `Except String`.
-/

namespace MachineSite

/-- One row of `metrics_raw`.  Columns `cpu_load`, `ram_total`, `ram_used`,
`ram_percent` are `NOT NULL` in the schema and the insert path defaults the
RAM and network fields with `?? 0`, so only the GPU fields and `cpu_temp`
can hold NULL in a stored row. -/
structure Sample where
  machine_id : String
  timestamp : Int
  cpu_load : ℚ
  cpu_temp : Option ℚ
  ram_total : ℚ
  ram_used : ℚ
  ram_percent : ℚ
  gpu_utilization : Option ℚ
  gpu_temp : Option ℚ
  gpu_mem_used : Option ℚ
  gpu_mem_total : Option ℚ
  network_rx_sec : ℚ
  network_tx_sec : ℚ
deriving Repr, DecidableEq

/-- One row of `metrics_hourly` (the `hourlyData` object built by
`aggregateHourly`). -/
structure HourlyRow where
  machine_id : String
  hour_start : Int
  cpu_load_avg : Option ℚ
  cpu_load_min : Option ℚ
  cpu_load_max : Option ℚ
  cpu_temp_avg : Option ℚ
  cpu_temp_max : Option ℚ
  ram_percent_avg : Option ℚ
  ram_percent_min : Option ℚ
  ram_percent_max : Option ℚ
  ram_used_avg : Option ℚ
  gpu_util_avg : Option ℚ
  gpu_util_min : Option ℚ
  gpu_util_max : Option ℚ
  gpu_temp_avg : Option ℚ
  gpu_temp_max : Option ℚ
  network_rx_total : ℚ
  network_tx_total : ℚ
  network_rx_avg : Option ℚ
  network_tx_avg : Option ℚ
  sample_count : Nat
deriving Repr, DecidableEq

/-- One row of `metrics_daily` (the `dailyData` object built by
`aggregateDaily`). -/
structure DailyRow where
  machine_id : String
  day_start : Int
  cpu_load_avg : Option ℚ
  cpu_load_min : Option ℚ
  cpu_load_max : Option ℚ
  cpu_temp_avg : Option ℚ
  cpu_temp_max : Option ℚ
  ram_percent_avg : Option ℚ
  ram_percent_min : Option ℚ
  ram_percent_max : Option ℚ
  gpu_util_avg : Option ℚ
  gpu_util_min : Option ℚ
  gpu_util_max : Option ℚ
  gpu_temp_avg : Option ℚ
  gpu_temp_max : Option ℚ
  network_rx_total : ℚ
  network_tx_total : ℚ
  sample_count : Nat
deriving Repr, DecidableEq

/-- One row of the `machines` table (columns relevant to the claims;
`created_at`/`updated_at` bookkeeping is omitted). -/
structure Machine where
  machine_id : String
  hostname : Option String
  display_name : Option String
  ip_address : Option String
  last_seen : Int
  is_active : Bool
  metadata : Option String
deriving Repr, DecidableEq

/-- The SQLite database state: the four tables the claims touch. -/
structure DB where
  raw : List Sample
  hourly : List HourlyRow
  daily : List DailyRow
  machines : List Machine
deriving Repr, DecidableEq

def emptyDB : DB := ⟨[], [], [], []⟩

/-! ### JS helper semantics

`avg`, `min`, `max`, `sum` as defined inline in `aggregateHourly` /
`aggregateDaily`:
`avg = arr => arr.length > 0 ? arr.reduce((a,b) => a+b, 0) / arr.length : null`,
`min/max = arr => arr.length > 0 ? Math.min/max(...arr) : null`,
`sum = arr => arr.reduce((a,b) => a+b, 0)`. -/

def jsAvg (arr : List ℚ) : Option ℚ :=
  if arr.isEmpty then none else some (arr.foldl (· + ·) 0 / arr.length)

def jsMin (arr : List ℚ) : Option ℚ :=
  match arr with
  | [] => none
  | x :: xs => some (xs.foldl min x)

def jsMax (arr : List ℚ) : Option ℚ :=
  match arr with
  | [] => none
  | x :: xs => some (xs.foldl max x)

def jsSum (arr : List ℚ) : ℚ := arr.foldl (· + ·) 0

/-- JS `a || b` on an optional string: `null`/`undefined` and `""` are falsy. -/
def jsStrOr (a b : Option String) : Option String :=
  match a with
  | some s => if s = "" then b else some s
  | none => b

/-- JS truthiness of an optional number (`null`/`undefined` and `0` falsy). -/
def jsNumTruthy (o : Option Int) : Bool :=
  match o with
  | none => false
  | some n => decide (n ≠ 0)

/-- JS truthiness of an optional string. -/
def jsStrTruthy (o : Option String) : Bool :=
  match o with
  | none => false
  | some s => decide (s ≠ "")

/-! ### Store range reads (prepared statements in `prepareStatements`) -/

/-- `SELECT * FROM metrics_raw WHERE machine_id = ? AND timestamp >= ?
AND timestamp <= ? ORDER BY timestamp ASC` — both bounds inclusive. -/
def getRawMetrics (tbl : List Sample) (machineId : String) (tstart tend : Int) :
    List Sample :=
  (tbl.filter (fun m =>
      decide (m.machine_id = machineId ∧ tstart ≤ m.timestamp ∧ m.timestamp ≤ tend))).mergeSort
    (fun a b => decide (a.timestamp ≤ b.timestamp))

/-- `SELECT * FROM metrics_hourly WHERE machine_id = ? AND hour_start >= ?
AND hour_start <= ? ORDER BY hour_start ASC`. -/
def getHourlyMetrics (tbl : List HourlyRow) (machineId : String) (tstart tend : Int) :
    List HourlyRow :=
  (tbl.filter (fun m =>
      decide (m.machine_id = machineId ∧ tstart ≤ m.hour_start ∧ m.hour_start ≤ tend))).mergeSort
    (fun a b => decide (a.hour_start ≤ b.hour_start))

/-- `SELECT * FROM metrics_daily WHERE machine_id = ? AND day_start >= ?
AND day_start <= ? ORDER BY day_start ASC`. -/
def getDailyMetrics (tbl : List DailyRow) (machineId : String) (tstart tend : Int) :
    List DailyRow :=
  (tbl.filter (fun m =>
      decide (m.machine_id = machineId ∧ tstart ≤ m.day_start ∧ m.day_start ≤ tend))).mergeSort
    (fun a b => decide (a.day_start ≤ b.day_start))

/-! ### Insert path (`insertMetric`, `insertMetricsBatch`) -/

/-- The metric object handed to `insertMetric` (JS object, any field may be
absent; `??` defaults are applied inside `insertMetric`). -/
structure MetricInput where
  machine_id : Option String := none
  timestamp : Int := 0
  cpu_load : Option ℚ := none
  cpu_temp : Option ℚ := none
  ram_total : Option ℚ := none
  ram_used : Option ℚ := none
  ram_percent : Option ℚ := none
  gpu_utilization : Option ℚ := none
  gpu_temp : Option ℚ := none
  gpu_mem_used : Option ℚ := none
  gpu_mem_total : Option ℚ := none
  network_rx_sec : Option ℚ := none
  network_tx_sec : Option ℚ := none
deriving Repr, DecidableEq

/-- `insertMetric`: runs the `INSERT INTO metrics_raw` statement with
`metric.cpu_load ?? null` etc., then
`UPDATE machines SET last_seen = metric.timestamp WHERE machine_id = ...`.
Binding NULL to the `NOT NULL` column `cpu_load` makes better-sqlite3 throw,
which `insertMetric` rethrows after logging. -/
def insertMetric (db : DB) (metric : MetricInput) : Except String DB :=
  match metric.cpu_load with
  | none => .error "NOT NULL constraint failed: metrics_raw.cpu_load"
  | some cpuLoad =>
    let mid := (jsStrOr metric.machine_id (some "localhost")).getD "localhost"
    let row : Sample := {
      machine_id := mid
      timestamp := metric.timestamp
      cpu_load := cpuLoad
      cpu_temp := metric.cpu_temp
      ram_total := metric.ram_total.getD 0
      ram_used := metric.ram_used.getD 0
      ram_percent := metric.ram_percent.getD 0
      gpu_utilization := metric.gpu_utilization
      gpu_temp := metric.gpu_temp
      gpu_mem_used := metric.gpu_mem_used
      gpu_mem_total := metric.gpu_mem_total
      network_rx_sec := metric.network_rx_sec.getD 0
      network_tx_sec := metric.network_tx_sec.getD 0 }
    .ok { db with
      raw := db.raw ++ [row]
      machines := db.machines.map (fun mc =>
        if mc.machine_id = mid then { mc with last_seen := metric.timestamp } else mc) }

/-- `insertMetricsBatch`: no-op on an empty array, otherwise all inserts run
inside one transaction — on any error the whole batch rolls back and the
error propagates. -/
def insertMetricsBatch (db : DB) (metrics : List MetricInput) : Except String DB :=
  if metrics.isEmpty then .ok db
  else metrics.foldlM insertMetric db

/-! ### MetricsWriter (`metricsWriter.js`) -/

structure MetricsWriter where
  queue : List MetricInput
  maxQueueSize : Nat
deriving Repr, DecidableEq

/-- `enqueue`: push the record, then if the queue exceeds `maxQueueSize`
shift off the single oldest record; the dropped record is the observable
eviction event (the code logs it). -/
def enqueue (w : MetricsWriter) (metric : MetricInput) :
    MetricsWriter × Option MetricInput :=
  let q := w.queue ++ [metric]
  if w.maxQueueSize < q.length then
    match q with
    | [] => ({ w with queue := [] }, none)
    | dropped :: rest => ({ w with queue := rest }, some dropped)
  else
    ({ w with queue := q }, none)

/-- Iterated `enqueue`, collecting the evicted records in order. -/
def enqueueAll (w : MetricsWriter) (metrics : List MetricInput) :
    MetricsWriter × List MetricInput :=
  metrics.foldl
    (fun acc m =>
      let step := enqueue acc.1 m
      (step.1, acc.2 ++ step.2.toList))
    (w, [])

/-- The requeue rule in `flush`'s catch branch: the failed batch is put back
with `unshift(...batch)` only when `queue.length + batch.length` fits the
capacity; otherwise the batch is dropped whole. -/
def requeueFailedBatch (maxQueueSize : Nat) (queue batch : List MetricInput) :
    List MetricInput :=
  if queue.length + batch.length ≤ maxQueueSize then batch ++ queue else queue

structure FlushResult where
  writer : MetricsWriter
  db : DB
  submitted : Option (List MetricInput)
  succeeded : Bool
deriving Repr, DecidableEq

/-- `flush`: early-return on an empty queue; otherwise `splice(0)` the whole
queue as one batch, submit it with `insertMetricsBatch`, and on error requeue
it under `requeueFailedBatch` (the queue observed by the catch branch is the
post-splice queue).  The error is caught, never rethrown. -/
def flush (w : MetricsWriter) (db : DB) : FlushResult :=
  if w.queue.isEmpty then ⟨w, db, none, true⟩
  else
    let batch := w.queue
    let drained : MetricsWriter := { w with queue := [] }
    match insertMetricsBatch db batch with
    | .ok db' => ⟨drained, db', some batch, true⟩
    | .error _ =>
      ⟨{ drained with
          queue := requeueFailedBatch w.maxQueueSize drained.queue batch },
        db, some batch, false⟩

/-! ### Aggregation (`aggregateHourly`, `aggregateDaily`) -/

/-- `INSERT OR REPLACE INTO metrics_hourly ...`: the schema declares
`hour_start INTEGER NOT NULL UNIQUE`, so a conflicting row (same
`hour_start`) is deleted and the new row inserted. -/
def upsertHourlyRow (tbl : List HourlyRow) (row : HourlyRow) : List HourlyRow :=
  tbl.filter (fun r => decide (r.hour_start ≠ row.hour_start)) ++ [row]

/-- `INSERT OR REPLACE INTO metrics_daily ...` under
`day_start INTEGER NOT NULL UNIQUE`. -/
def upsertDailyRow (tbl : List DailyRow) (row : DailyRow) : List DailyRow :=
  tbl.filter (fun r => decide (r.day_start ≠ row.day_start)) ++ [row]

/-- The `hourlyData` object computed by `aggregateHourly` from the raw rows
of the hour.  The code filters `v != null` from each column before reducing;
on the `NOT NULL` columns (`cpu_load`, `ram_percent`, `ram_used`) and the
`?? 0`-defaulted network columns that filter keeps every element, so those
columns are plain `map`s here. -/
def hourlyRowOf (machineId : String) (hourStart : Int) (rawMetrics : List Sample) :
    HourlyRow :=
  let cpu_loads := rawMetrics.map (fun m => m.cpu_load)
  let cpu_temps := rawMetrics.filterMap (fun m => m.cpu_temp)
  let ram_percents := rawMetrics.map (fun m => m.ram_percent)
  let ram_useds := rawMetrics.map (fun m => m.ram_used)
  let gpu_utils := rawMetrics.filterMap (fun m => m.gpu_utilization)
  let gpu_temps := rawMetrics.filterMap (fun m => m.gpu_temp)
  let network_rx := rawMetrics.map (fun m => m.network_rx_sec)
  let network_tx := rawMetrics.map (fun m => m.network_tx_sec)
  { machine_id := machineId
    hour_start := hourStart
    cpu_load_avg := jsAvg cpu_loads
    cpu_load_min := jsMin cpu_loads
    cpu_load_max := jsMax cpu_loads
    cpu_temp_avg := jsAvg cpu_temps
    cpu_temp_max := jsMax cpu_temps
    ram_percent_avg := jsAvg ram_percents
    ram_percent_min := jsMin ram_percents
    ram_percent_max := jsMax ram_percents
    ram_used_avg := jsAvg ram_useds
    gpu_util_avg := jsAvg gpu_utils
    gpu_util_min := jsMin gpu_utils
    gpu_util_max := jsMax gpu_utils
    gpu_temp_avg := jsAvg gpu_temps
    gpu_temp_max := jsMax gpu_temps
    network_rx_total := jsSum network_rx
    network_tx_total := jsSum network_tx
    network_rx_avg := jsAvg network_rx
    network_tx_avg := jsAvg network_tx
    sample_count := rawMetrics.length }

/-- `aggregateHourly(machineId, hourStart)`: reads the raw rows of
`[hourStart, hourStart + 1h]` (both bounds inclusive — `getRawMetrics` uses
`>= ? AND <= ?`), returns `null` when there are none, otherwise builds the
`hourlyData` row, upserts it into `metrics_hourly`, and returns it. -/
def aggregateHourly (db : DB) (machineId : String) (hourStart : Int) :
    Option HourlyRow × DB :=
  let hourEnd := hourStart + 60 * 60 * 1000
  let rawMetrics := getRawMetrics db.raw machineId hourStart hourEnd
  if rawMetrics.isEmpty then (none, db)
  else
    let row := hourlyRowOf machineId hourStart rawMetrics
    (some row, { db with hourly := upsertHourlyRow db.hourly row })

/-- The `dailyData` object computed by `aggregateDaily` from the hourly rows
of the day.  Per-hour averages are averaged directly (each hourly row counts
once, regardless of its `sample_count`); totals and `sample_count` are
summed; min/max fold the per-hour minima/maxima. -/
def dailyRowOf (machineId : String) (dayStart : Int) (hourlyMetrics : List HourlyRow) :
    DailyRow :=
  let cpu_loads_avg := hourlyMetrics.filterMap (fun m => m.cpu_load_avg)
  let cpu_loads_min := hourlyMetrics.filterMap (fun m => m.cpu_load_min)
  let cpu_loads_max := hourlyMetrics.filterMap (fun m => m.cpu_load_max)
  let cpu_temps_avg := hourlyMetrics.filterMap (fun m => m.cpu_temp_avg)
  let cpu_temps_max := hourlyMetrics.filterMap (fun m => m.cpu_temp_max)
  let ram_percents_avg := hourlyMetrics.filterMap (fun m => m.ram_percent_avg)
  let ram_percents_min := hourlyMetrics.filterMap (fun m => m.ram_percent_min)
  let ram_percents_max := hourlyMetrics.filterMap (fun m => m.ram_percent_max)
  let gpu_utils_avg := hourlyMetrics.filterMap (fun m => m.gpu_util_avg)
  let gpu_utils_min := hourlyMetrics.filterMap (fun m => m.gpu_util_min)
  let gpu_utils_max := hourlyMetrics.filterMap (fun m => m.gpu_util_max)
  let gpu_temps_avg := hourlyMetrics.filterMap (fun m => m.gpu_temp_avg)
  let gpu_temps_max := hourlyMetrics.filterMap (fun m => m.gpu_temp_max)
  { machine_id := machineId
    day_start := dayStart
    cpu_load_avg := jsAvg cpu_loads_avg
    cpu_load_min := jsMin cpu_loads_min
    cpu_load_max := jsMax cpu_loads_max
    cpu_temp_avg := jsAvg cpu_temps_avg
    cpu_temp_max := jsMax cpu_temps_max
    ram_percent_avg := jsAvg ram_percents_avg
    ram_percent_min := jsMin ram_percents_min
    ram_percent_max := jsMax ram_percents_max
    gpu_util_avg := jsAvg gpu_utils_avg
    gpu_util_min := jsMin gpu_utils_min
    gpu_util_max := jsMax gpu_utils_max
    gpu_temp_avg := jsAvg gpu_temps_avg
    gpu_temp_max := jsMax gpu_temps_max
    network_rx_total := jsSum (hourlyMetrics.map (fun m => m.network_rx_total))
    network_tx_total := jsSum (hourlyMetrics.map (fun m => m.network_tx_total))
    sample_count := (hourlyMetrics.map (fun m => m.sample_count)).foldl (· + ·) 0 }

/-- `aggregateDaily(machineId, dayStart)`: reads the hourly rows of
`[dayStart, dayStart + 24h]` (both bounds inclusive), returns `null` when
there are none, otherwise builds the `dailyData` row and upserts it. -/
def aggregateDaily (db : DB) (machineId : String) (dayStart : Int) :
    Option DailyRow × DB :=
  let dayEnd := dayStart + 24 * 60 * 60 * 1000
  let hourlyMetrics := getHourlyMetrics db.hourly machineId dayStart dayEnd
  if hourlyMetrics.isEmpty then (none, db)
  else
    let row := dailyRowOf machineId dayStart hourlyMetrics
    (some row, { db with daily := upsertDailyRow db.daily row })

/-! ### Query planner (`getMetrics`) -/

inductive Granularity where
  | raw
  | hourly
  | daily
deriving Repr, DecidableEq

inductive MetricsData where
  | rawData (rows : List Sample)
  | hourlyData (rows : List HourlyRow)
  | dailyData (rows : List DailyRow)
deriving Repr, DecidableEq

structure MetricsResult where
  granularity : Granularity
  data : MetricsData
deriving Repr, DecidableEq

/-- `getMetrics(machineId, startTimestamp, endTimestamp, granularity)`:
`'auto'` picks raw for `durationHours <= 24`, hourly for
`durationHours <= 24*90`, daily otherwise; an explicit granularity is used
as-is; anything else throws.  Hourly/daily bounds are truncated with
`Math.floor(x / bucket) * bucket` before querying. -/
def getMetrics (db : DB) (machineId : String) (startTimestamp endTimestamp : Int)
    (granularity : String) : Except String MetricsResult :=
  let durationMs : Int := endTimestamp - startTimestamp
  let durationHours : ℚ := (durationMs : ℚ) / (1000 * 60 * 60)
  let g : String :=
    if granularity = "auto" then
      if durationHours ≤ 24 then "raw"
      else if durationHours ≤ 24 * 90 then "hourly"
      else "daily"
    else granularity
  if g = "raw" then
    .ok ⟨.raw, .rawData (getRawMetrics db.raw machineId startTimestamp endTimestamp)⟩
  else if g = "hourly" then
    let hourStart := (startTimestamp.fdiv (1000 * 60 * 60)) * (1000 * 60 * 60)
    let hourEnd := (endTimestamp.fdiv (1000 * 60 * 60)) * (1000 * 60 * 60)
    .ok ⟨.hourly, .hourlyData (getHourlyMetrics db.hourly machineId hourStart hourEnd)⟩
  else if g = "daily" then
    let dayStart := (startTimestamp.fdiv (1000 * 60 * 60 * 24)) * (1000 * 60 * 60 * 24)
    let dayEnd := (endTimestamp.fdiv (1000 * 60 * 60 * 24)) * (1000 * 60 * 60 * 24)
    .ok ⟨.daily, .dailyData (getDailyMetrics db.daily machineId dayStart dayEnd)⟩
  else
    .error ("Invalid granularity: " ++ g)

/-! ### Machine registry (`upsertMachine`, `getMachine`) and routes -/

/-- The machine object handed to `upsertMachine`. -/
structure MachineInput where
  machine_id : String
  hostname : Option String := none
  display_name : Option String := none
  ip_address : Option String := none
  last_seen : Option Int := none
  metadata : Option String := none
deriving Repr, DecidableEq

/-- `upsertMachine`: `INSERT ... ON CONFLICT(machine_id) DO UPDATE SET`
hostname/display_name/ip_address/last_seen/metadata.  Every listed column,
metadata included, is overwritten with the bound value on conflict.
`display_name` defaults through `machine.display_name || machine.hostname ||
machine.machine_id`, `last_seen` through `machine.last_seen || Date.now()`,
and metadata binds `machine.metadata ? JSON.stringify(...) : null`
(the opaque stringified blob, or NULL when absent). -/
def upsertMachine (db : DB) (now : Int) (machine : MachineInput) : DB :=
  let hostname := jsStrOr machine.hostname none
  let display_name :=
    jsStrOr machine.display_name (jsStrOr machine.hostname (some machine.machine_id))
  let ip_address := jsStrOr machine.ip_address none
  let last_seen :=
    match machine.last_seen with
    | some t => if t = 0 then now else t
    | none => now
  let metadata := machine.metadata
  if db.machines.any (fun mc => decide (mc.machine_id = machine.machine_id)) then
    { db with machines := db.machines.map (fun mc =>
        if mc.machine_id = machine.machine_id then
          { mc with
            hostname := hostname
            display_name := display_name
            ip_address := ip_address
            last_seen := last_seen
            metadata := metadata }
        else mc) }
  else
    { db with machines := db.machines ++ [{
        machine_id := machine.machine_id
        hostname := hostname
        display_name := display_name
        ip_address := ip_address
        last_seen := last_seen
        is_active := true
        metadata := metadata }] }

/-- `SELECT * FROM machines WHERE machine_id = ?` (`machine_id` is UNIQUE). -/
def getMachine (db : DB) (machineId : String) : Option Machine :=
  db.machines.find? (fun m => decide (m.machine_id = machineId))

/-- Request body of `POST /api/machines/:machine_id/register`.  The metadata
payload is modelled by its stringified form. -/
structure RegisterBody where
  hostname : Option String := none
  display_name : Option String := none
  ip_address : Option String := none
  metadata : Option String := none
deriving Repr, DecidableEq

inductive RegisterResponse where
  | ok (machine_id : String)
  | serverError (error : String)
deriving Repr, DecidableEq

/-- `POST /api/machines/:machine_id/register`: upserts the machine with
`last_seen: Date.now()` and `metadata: metadata || null`, then responds OK.
(`upsertMachine` cannot throw here, so the catch branch is dead.) -/
def registerRoute (db : DB) (now : Int) (machineId : String) (body : RegisterBody) :
    DB × RegisterResponse :=
  let db' := upsertMachine db now {
    machine_id := machineId
    hostname := jsStrOr body.hostname none
    display_name := jsStrOr body.display_name (jsStrOr body.hostname (some machineId))
    ip_address := jsStrOr body.ip_address none
    last_seen := some now
    metadata := body.metadata }
  (db', .ok machineId)

/-- Request body of `POST /api/machines/:machine_id/metrics`. -/
structure MetricsBody where
  metrics : Option (List MetricInput) := none
  hostname : Option String := none
  display_name : Option String := none
  ip_address : Option String := none
  system_info : Option String := none
deriving Repr, DecidableEq

inductive MetricsResponse where
  | ok (count : Nat) (machine_id : String)
  | badRequest (error : String)
  | serverError (error : String)
deriving Repr, DecidableEq

/-- `POST /api/machines/:machine_id/metrics`: validates the metrics array,
upserts the machine (`last_seen: Date.now()`, metadata from `system_info`
when present), stamps `machine_id` onto every metric and batch-inserts.
The machine upsert is not part of the batch transaction: if the batch
fails, the upsert has already been applied and the route answers 500. -/
def metricsRoute (db : DB) (now : Int) (reqIp : Option String) (machineId : String)
    (body : MetricsBody) : DB × MetricsResponse :=
  match body.metrics with
  | none => (db, .badRequest "Invalid metrics format. Expected array of metrics.")
  | some metrics =>
    let machineData : MachineInput := {
      machine_id := machineId
      hostname := jsStrOr body.hostname none
      display_name := jsStrOr body.display_name (jsStrOr body.hostname (some machineId))
      ip_address := jsStrOr body.ip_address (jsStrOr reqIp none)
      last_seen := some now
      metadata := body.system_info }
    let db1 := upsertMachine db now machineData
    let metricsWithMachineId := metrics.map (fun m => { m with machine_id := some machineId })
    match insertMetricsBatch db1 metricsWithMachineId with
    | .ok db2 => (db2, .ok metrics.length machineId)
    | .error e => (db1, .serverError e)

/-! ### Manual cleanup route (`POST /api/data/cleanup`) -/

/-- A value bound to a prepared-statement placeholder. -/
inductive SqlValue where
  | str (v : String)
  | int (v : Int)
deriving Repr, DecidableEq

/-- SQLite `=` between a bound value and a TEXT column. -/
def sqlEqStr (v : SqlValue) (s : String) : Bool :=
  match v with
  | .str x => decide (x = s)
  | .int _ => false

/-- SQLite `<` between an INTEGER column and a bound value (an integer sorts
before any text under SQLite's type ordering). -/
def sqlIntLt (t : Int) (v : SqlValue) : Bool :=
  match v with
  | .int x => decide (t < x)
  | .str _ => true

/-- Running `DELETE FROM metrics_raw WHERE machine_id = ? AND timestamp < ?`.
The statement has two placeholders; better-sqlite3 raises a `RangeError`
when the caller binds any other number of values. -/
def deleteOldRawMetricsRun (tbl : List Sample) (params : List SqlValue) :
    Except String (List Sample × Nat) :=
  match params with
  | [midv, cutv] =>
    let remaining := tbl.filter (fun r => !(sqlEqStr midv r.machine_id && sqlIntLt r.timestamp cutv))
    .ok (remaining, tbl.length - remaining.length)
  | _ => .error "Too few parameter values were provided"

/-- `DELETE FROM metrics_hourly WHERE machine_id = ? AND hour_start < ?`. -/
def deleteOldHourlyMetricsRun (tbl : List HourlyRow) (params : List SqlValue) :
    Except String (List HourlyRow × Nat) :=
  match params with
  | [midv, cutv] =>
    let remaining := tbl.filter (fun r => !(sqlEqStr midv r.machine_id && sqlIntLt r.hour_start cutv))
    .ok (remaining, tbl.length - remaining.length)
  | _ => .error "Too few parameter values were provided"

/-- `DELETE FROM metrics_daily WHERE machine_id = ? AND day_start < ?`. -/
def deleteOldDailyMetricsRun (tbl : List DailyRow) (params : List SqlValue) :
    Except String (List DailyRow × Nat) :=
  match params with
  | [midv, cutv] =>
    let remaining := tbl.filter (fun r => !(sqlEqStr midv r.machine_id && sqlIntLt r.day_start cutv))
    .ok (remaining, tbl.length - remaining.length)
  | _ => .error "Too few parameter values were provided"

structure CleanupBody where
  older_than_days : Option Int := none
  granularity : Option String := none
deriving Repr, DecidableEq

inductive CleanupResponse where
  | ok (deleted_count : Nat) (granularity : String) (older_than_days : Int) (cutoff : Int)
  | badRequest (error : String)
  | serverError (error : String)
deriving Repr, DecidableEq

/-- `POST /api/data/cleanup`: validates `older_than_days` and `granularity`
(JS truthiness, membership in raw/hourly/daily), computes
`cutoff = Date.now() - older_than_days * 86400000`, then runs the matching
delete statement — binding only the cutoff, although each statement has two
placeholders (`machine_id = ? AND ... < ?`).  Any thrown error is caught and
answered as a 500. -/
def cleanupRoute (db : DB) (now : Int) (body : CleanupBody) : DB × CleanupResponse :=
  if !(jsNumTruthy body.older_than_days) || !(jsStrTruthy body.granularity) then
    (db, .badRequest "Missing required parameters: older_than_days and granularity")
  else
    let d := body.older_than_days.getD 0
    let g := body.granularity.getD ""
    if !(["raw", "hourly", "daily"].contains g) then
      (db, .badRequest "Invalid granularity. Must be raw, hourly, or daily")
    else
      let cutoffTimestamp := now - d * (24 * 60 * 60 * 1000)
      let outcome : Except String (DB × Nat) :=
        if g = "raw" then
          (deleteOldRawMetricsRun db.raw [.int cutoffTimestamp]).map
            (fun p => ({ db with raw := p.1 }, p.2))
        else if g = "hourly" then
          (deleteOldHourlyMetricsRun db.hourly [.int cutoffTimestamp]).map
            (fun p => ({ db with hourly := p.1 }, p.2))
        else
          (deleteOldDailyMetricsRun db.daily [.int cutoffTimestamp]).map
            (fun p => ({ db with daily := p.1 }, p.2))
      match outcome with
      | .ok (db', n) => (db', .ok n g d cutoffTimestamp)
      | .error e => (db, .serverError ("Failed to cleanup data: " ++ e))

/-! ### Spec-side definitions

Used only to compare the implementation with the spec's words where a claim
is a refinement statement. -/

/-- The arithmetic mean of a list of values (none on the empty list), as the
spec words "avg fields equal the arithmetic mean". -/
def meanOf (vals : List ℚ) : Option ℚ :=
  if vals = [] then none else some (vals.sum / vals.length)

/-- `o` holds the true minimum of `vals` (and is none exactly on no data). -/
def IsMinOf (o : Option ℚ) (vals : List ℚ) : Prop :=
  match o with
  | none => vals = []
  | some w => w ∈ vals ∧ ∀ v ∈ vals, w ≤ v

/-- `o` holds the true maximum of `vals` (and is none exactly on no data). -/
def IsMaxOf (o : Option ℚ) (vals : List ℚ) : Prop :=
  match o with
  | none => vals = []
  | some w => w ∈ vals ∧ ∀ v ∈ vals, v ≤ w

/-- The spec's words for the failed-flush requeue: the batch goes back to
the front and, when capacity is exceeded, the oldest records are evicted
one at a time (the front of `batch ++ queue` is oldest). -/
def specRequeueEvictOldest (maxQueueSize : Nat) (queue batch : List MetricInput) :
    List MetricInput :=
  let combined := batch ++ queue
  combined.drop (combined.length - maxQueueSize)

/-- The spec's words for a daily average: per-hour averages combined
weighted by each hour's sample count. -/
def specWeightedMeanBySampleCount (pairs : List (ℚ × Nat)) : Option ℚ :=
  let total : Nat := (pairs.map (fun p => p.2)).sum
  if total = 0 then none
  else some ((pairs.map (fun p => p.1 * (p.2 : ℚ))).sum / (total : ℚ))

/-! ### Shared lemmas -/

theorem foldl_add_eq_sum (l : List ℚ) : l.foldl (· + ·) 0 = l.sum := by
  rw [List.sum_eq_foldl]

theorem foldl_min_mem {α : Type} [LinearOrder α] (xs : List α) (x : α) :
    xs.foldl min x ∈ x :: xs := by
  induction xs generalizing x with
  | nil => simp
  | cons y ys ih =>
    have h := ih (min x y)
    simp only [List.foldl_cons]
    rcases List.mem_cons.mp h with h' | h'
    · rw [h']
      rcases min_choice x y with hc | hc <;> rw [hc] <;> simp
    · simp [h']

theorem foldl_min_le {α : Type} [LinearOrder α] (xs : List α) (x : α) :
    ∀ v ∈ x :: xs, xs.foldl min x ≤ v := by
  induction xs generalizing x with
  | nil => intro v hv; simp at hv; simp [hv]
  | cons y ys ih =>
    intro v hv
    simp only [List.foldl_cons]
    rcases List.mem_cons.mp hv with h | h
    · rw [h]
      exact le_trans (ih _ _ (List.mem_cons_self _ _)) (min_le_left x y)
    rcases List.mem_cons.mp h with h' | h'
    · rw [h']
      exact le_trans (ih _ _ (List.mem_cons_self _ _)) (min_le_right x y)
    · exact ih _ _ (List.mem_cons.mpr (Or.inr h'))

theorem foldl_max_mem {α : Type} [LinearOrder α] (xs : List α) (x : α) :
    xs.foldl max x ∈ x :: xs := by
  induction xs generalizing x with
  | nil => simp
  | cons y ys ih =>
    have h := ih (max x y)
    simp only [List.foldl_cons]
    rcases List.mem_cons.mp h with h' | h'
    · rw [h']
      rcases max_choice x y with hc | hc <;> rw [hc] <;> simp
    · simp [h']

theorem foldl_le_max {α : Type} [LinearOrder α] (xs : List α) (x : α) :
    ∀ v ∈ x :: xs, v ≤ xs.foldl max x := by
  induction xs generalizing x with
  | nil => intro v hv; simp at hv; simp [hv]
  | cons y ys ih =>
    intro v hv
    simp only [List.foldl_cons]
    rcases List.mem_cons.mp hv with h | h
    · rw [h]
      exact le_trans (le_max_left x y) (ih _ _ (List.mem_cons_self _ _))
    rcases List.mem_cons.mp h with h' | h'
    · rw [h']
      exact le_trans (le_max_right x y) (ih _ _ (List.mem_cons_self _ _))
    · exact ih _ _ (List.mem_cons.mpr (Or.inr h'))

/-- The implementation's `avg` is the spec's arithmetic mean. -/
theorem jsAvg_eq_meanOf (l : List ℚ) : jsAvg l = meanOf l := by
  unfold jsAvg meanOf
  rw [foldl_add_eq_sum]
  simp [List.isEmpty_iff]

theorem perm_eq_nil_iff {α : Type} {l l' : List α} (h : l.Perm l') : l = [] ↔ l' = [] := by
  constructor
  · intro he
    have := h.length_eq
    simpa [he, List.length_eq_zero] using this.symm
  · intro he
    have := h.length_eq
    simpa [he, List.length_eq_zero] using this

theorem meanOf_perm {l l' : List ℚ} (h : l.Perm l') : meanOf l = meanOf l' := by
  unfold meanOf
  by_cases hn : l = []
  · have hn' : l' = [] := (perm_eq_nil_iff h).mp hn
    simp [hn, hn']
  · have hn' : l' ≠ [] := fun he => hn ((perm_eq_nil_iff h).mpr he)
    rw [if_neg hn, if_neg hn', h.sum_eq, h.length_eq]

theorem jsSum_eq_sum (l : List ℚ) : jsSum l = l.sum := foldl_add_eq_sum l

theorem jsMin_IsMinOf (l : List ℚ) : IsMinOf (jsMin l) l := by
  cases l with
  | nil => simp [jsMin, IsMinOf]
  | cons x xs =>
    refine ⟨foldl_min_mem xs x, foldl_min_le xs x⟩

theorem jsMax_IsMaxOf (l : List ℚ) : IsMaxOf (jsMax l) l := by
  cases l with
  | nil => simp [jsMax, IsMaxOf]
  | cons x xs =>
    refine ⟨foldl_max_mem xs x, foldl_le_max xs x⟩

theorem IsMinOf_perm {o : Option ℚ} {l l' : List ℚ} (h : l.Perm l')
    (hm : IsMinOf o l) : IsMinOf o l' := by
  cases o with
  | none =>
    show l' = []
    exact (perm_eq_nil_iff h).mp hm
  | some w =>
    exact ⟨h.mem_iff.mp hm.1, fun v hv => hm.2 v (h.mem_iff.mpr hv)⟩

theorem IsMaxOf_perm {o : Option ℚ} {l l' : List ℚ} (h : l.Perm l')
    (hm : IsMaxOf o l) : IsMaxOf o l' := by
  cases o with
  | none =>
    show l' = []
    exact (perm_eq_nil_iff h).mp hm
  | some w =>
    exact ⟨h.mem_iff.mp hm.1, fun v hv => hm.2 v (h.mem_iff.mpr hv)⟩

/-- When every row of the table is the queried machine's and inside the
queried window, the range read returns the whole table up to reordering. -/
theorem getRawMetrics_perm (tbl : List Sample) (machineId : String) (a b : Int)
    (h : ∀ s ∈ tbl, s.machine_id = machineId ∧ a ≤ s.timestamp ∧ s.timestamp ≤ b) :
    (getRawMetrics tbl machineId a b).Perm tbl := by
  unfold getRawMetrics
  have hf : tbl.filter
      (fun m => decide (m.machine_id = machineId ∧ a ≤ m.timestamp ∧ m.timestamp ≤ b)) = tbl :=
    List.filter_eq_self.mpr (fun s hs => decide_eq_true (h s hs))
  rw [hf]
  exact List.mergeSort_perm tbl _

theorem getHourlyMetrics_perm (tbl : List HourlyRow) (machineId : String) (a b : Int)
    (h : ∀ r ∈ tbl, r.machine_id = machineId ∧ a ≤ r.hour_start ∧ r.hour_start ≤ b) :
    (getHourlyMetrics tbl machineId a b).Perm tbl := by
  unfold getHourlyMetrics
  have hf : tbl.filter
      (fun m => decide (m.machine_id = machineId ∧ a ≤ m.hour_start ∧ m.hour_start ≤ b)) = tbl :=
    List.filter_eq_self.mpr (fun s hs => decide_eq_true (h s hs))
  rw [hf]
  exact List.mergeSort_perm tbl _

/-! ### Concrete fixtures used by witnesses and counterexamples -/

/-- A well-formed metric input for machine m1. -/
def m1metric (t : Int) : MetricInput :=
  { machine_id := some "m1", timestamp := t, cpu_load := some 50 }

/-- A metric input whose missing `cpu_load` violates the `NOT NULL` column,
making the batch transaction fail. -/
def badMetric : MetricInput := { machine_id := some "m1", timestamp := 0 }

/-! ### C4 — ingestion buffer eviction and flush -/

/-- C4: with capacity 5, enqueueing seven samples in order keeps exactly
samples #3–#7 (in order), reports the evictions of #1 and #2 one per
overflowing enqueue, and a subsequent flush submits exactly those five, in
order, as one batch to the store, draining the queue. -/
theorem claim_C4_buffer_evicts_oldest_and_flushes_in_order
    (db db' : DB) (s1 s2 s3 s4 s5 s6 s7 : MetricInput)
    (hok : insertMetricsBatch db [s3, s4, s5, s6, s7] = .ok db') :
    (enqueueAll ⟨[], 5⟩ [s1, s2, s3, s4, s5, s6, s7]).1.queue = [s3, s4, s5, s6, s7] ∧
    (enqueueAll ⟨[], 5⟩ [s1, s2, s3, s4, s5, s6, s7]).2 = [s1, s2] ∧
    flush (enqueueAll ⟨[], 5⟩ [s1, s2, s3, s4, s5, s6, s7]).1 db =
      ⟨⟨[], 5⟩, db', some [s3, s4, s5, s6, s7], true⟩ := by
  have hsteps : enqueueAll ⟨[], 5⟩ [s1, s2, s3, s4, s5, s6, s7] =
      (⟨[s3, s4, s5, s6, s7], 5⟩, [s1, s2]) := by
    simp [enqueueAll, enqueue]
  refine ⟨by rw [hsteps], by rw [hsteps], ?_⟩
  rw [hsteps]
  show flush ⟨[s3, s4, s5, s6, s7], 5⟩ db = _
  unfold flush
  simp only [List.isEmpty_cons, Bool.false_eq_true, if_false, hok]

theorem claim_C4_witness :
    (enqueueAll ⟨[], 5⟩ [m1metric 1, m1metric 2, m1metric 3, m1metric 4, m1metric 5,
        m1metric 6, m1metric 7]).1.queue
      = [m1metric 3, m1metric 4, m1metric 5, m1metric 6, m1metric 7] ∧
    (enqueueAll ⟨[], 5⟩ [m1metric 1, m1metric 2, m1metric 3, m1metric 4, m1metric 5,
        m1metric 6, m1metric 7]).2 = [m1metric 1, m1metric 2] := by
  have h := claim_C4_buffer_evicts_oldest_and_flushes_in_order emptyDB
    (match insertMetricsBatch emptyDB
        [m1metric 3, m1metric 4, m1metric 5, m1metric 6, m1metric 7] with
      | .ok d => d
      | .error _ => emptyDB)
    (m1metric 1) (m1metric 2) (m1metric 3) (m1metric 4) (m1metric 5) (m1metric 6) (m1metric 7)
    rfl
  exact ⟨h.1, h.2.1⟩

/-! ### C5 — failed-flush requeue -/

/-- C5 counterexample: the code's requeue rule is not "push the batch back,
evicting the oldest one at a time".  At capacity 5 with three records still
queued and a drained batch of three, the code discards the whole batch
(none of its records survive), whereas the claimed rule keeps the two
newest batch records in front of the queue. -/
theorem claim_C5_counterexample :
    requeueFailedBatch 5 [m1metric 10, m1metric 11, m1metric 12]
        [m1metric 1, m1metric 2, m1metric 3]
      = [m1metric 10, m1metric 11, m1metric 12] ∧
    specRequeueEvictOldest 5 [m1metric 10, m1metric 11, m1metric 12]
        [m1metric 1, m1metric 2, m1metric 3]
      = [m1metric 2, m1metric 3, m1metric 10, m1metric 11, m1metric 12] ∧
    requeueFailedBatch 5 [m1metric 10, m1metric 11, m1metric 12]
        [m1metric 1, m1metric 2, m1metric 3]
      ≠ specRequeueEvictOldest 5 [m1metric 10, m1metric 11, m1metric 12]
        [m1metric 1, m1metric 2, m1metric 3] := by
  refine ⟨by decide, by decide, by decide⟩

/-- C5 amended: when the store transaction fails, the drained batch is put
back in front only if it fits the capacity together with the records then
queued, and is discarded whole otherwise; because `flush` drains the queue
synchronously, the queue seen by the catch branch is empty, so whenever the
queue respected its capacity bound the failed batch is always requeued in
full (queue unchanged, store unchanged, failure reported, no exception).
`enqueue` preserves that capacity bound. -/
theorem claim_C5_amended_failed_flush_requeues_whole_batch
    (w : MetricsWriter) (db : DB) (err : String)
    (hcap : w.queue.length ≤ w.maxQueueSize)
    (hfail : insertMetricsBatch db w.queue = .error err) :
    flush w db = ⟨w, db, some w.queue, false⟩ ∧
    ∀ m, (enqueue w m).1.queue.length ≤ w.maxQueueSize := by
  constructor
  · have hne : w.queue.isEmpty = false := by
      cases hq : w.queue with
      | nil =>
        rw [hq] at hfail
        simp [insertMetricsBatch] at hfail
      | cons x xs => simp
    unfold flush
    rw [hne]
    simp only [Bool.false_eq_true, if_false, hfail]
    have hreq : requeueFailedBatch w.maxQueueSize [] w.queue = w.queue := by
      unfold requeueFailedBatch
      simp [hcap]
    rw [hreq]
  · intro m
    unfold enqueue
    by_cases hfull : w.maxQueueSize < (w.queue ++ [m]).length
    · rw [if_pos hfull]
      cases hq : w.queue ++ [m] with
      | nil => simp at hq
      | cons d rest =>
        have : rest.length + 1 = w.queue.length + 1 := by
          have := congrArg List.length hq
          simpa using this.symm
        simpa using le_trans (Nat.le_of_eq (Nat.succ_injective this)) hcap
    · rw [if_neg hfull]
      simpa using Nat.le_of_not_lt hfull

theorem claim_C5_amended_witness :
    flush ⟨[badMetric], 5⟩ emptyDB = ⟨⟨[badMetric], 5⟩, emptyDB, some [badMetric], false⟩ :=
  (claim_C5_amended_failed_flush_requeues_whole_batch ⟨[badMetric], 5⟩ emptyDB
    "NOT NULL constraint failed: metrics_raw.cpu_load" (by decide) rfl).1

/-! ### C10 — manual cleanup route -/

/-- C10: the manual cleanup route never succeeds.  Each delete statement has
two placeholders (`machine_id = ? AND ... < ?`) but the route binds only the
cutoff, so better-sqlite3 raises and every valid request is answered with
the 500 catch branch, the database untouched — the claimed
"success with a deleted-row count" is impossible. -/
theorem claim_C10_cleanup_route_always_500
    (db : DB) (now : Int) (d : Int) (g : String)
    (hd : 0 < d) (hg : g = "raw" ∨ g = "hourly" ∨ g = "daily") :
    cleanupRoute db now { older_than_days := some d, granularity := some g } =
      (db, .serverError "Failed to cleanup data: Too few parameter values were provided") := by
  have hdt : jsNumTruthy (some d) = true := by
    simp [jsNumTruthy]
    omega
  rcases hg with rfl | rfl | rfl <;>
    simp [cleanupRoute, hdt, jsStrTruthy, deleteOldRawMetricsRun,
      deleteOldHourlyMetricsRun, deleteOldDailyMetricsRun, Except.map]

theorem claim_C10_witness :
    cleanupRoute emptyDB 1000000000 { older_than_days := some 7, granularity := some "raw" } =
      (emptyDB, .serverError "Failed to cleanup data: Too few parameter values were provided") :=
  claim_C10_cleanup_route_always_500 emptyDB 1000000000 7 "raw" (by decide) (Or.inl rfl)

/-! ### C2 — auto granularity selection -/

/-- The `durationHours` comparison in `getMetrics` against a bound of `n`
hours is the comparison of the millisecond span. -/
theorem durationHours_le_iff (s e : Int) (n : ℚ) :
    ((((e - s : Int) : ℚ) / (1000 * 60 * 60)) ≤ n) ↔
      (((e - s : Int) : ℚ) ≤ n * (1000 * 60 * 60)) := by
  rw [div_le_iff₀ (by norm_num : (0 : ℚ) < 1000 * 60 * 60)]

/-- C2: with resolution `"auto"`, `getMetrics` serves raw rows for spans of
at most 24 hours, hourly rows for spans of more than 24 hours up to 90 days,
and daily rows beyond that; an explicit `"raw"`, `"hourly"` or `"daily"`
resolution is honored regardless of the span. -/
theorem claim_C2_auto_granularity_selection
    (db : DB) (machineId : String) (s e : Int) (hlt : s < e) :
    ((e - s) ≤ 24 * (1000 * 60 * 60) →
      getMetrics db machineId s e "auto" =
        .ok ⟨.raw, .rawData (getRawMetrics db.raw machineId s e)⟩) ∧
    (24 * (1000 * 60 * 60) < (e - s) → (e - s) ≤ 90 * 24 * (1000 * 60 * 60) →
      getMetrics db machineId s e "auto" =
        .ok ⟨.hourly, .hourlyData (getHourlyMetrics db.hourly machineId
          ((s.fdiv (1000 * 60 * 60)) * (1000 * 60 * 60))
          ((e.fdiv (1000 * 60 * 60)) * (1000 * 60 * 60)))⟩) ∧
    (90 * 24 * (1000 * 60 * 60) < (e - s) →
      getMetrics db machineId s e "auto" =
        .ok ⟨.daily, .dailyData (getDailyMetrics db.daily machineId
          ((s.fdiv (1000 * 60 * 60 * 24)) * (1000 * 60 * 60 * 24))
          ((e.fdiv (1000 * 60 * 60 * 24)) * (1000 * 60 * 60 * 24)))⟩) ∧
    (getMetrics db machineId s e "raw" =
      .ok ⟨.raw, .rawData (getRawMetrics db.raw machineId s e)⟩) ∧
    (getMetrics db machineId s e "hourly" =
      .ok ⟨.hourly, .hourlyData (getHourlyMetrics db.hourly machineId
        ((s.fdiv (1000 * 60 * 60)) * (1000 * 60 * 60))
        ((e.fdiv (1000 * 60 * 60)) * (1000 * 60 * 60)))⟩) ∧
    (getMetrics db machineId s e "daily" =
      .ok ⟨.daily, .dailyData (getDailyMetrics db.daily machineId
        ((s.fdiv (1000 * 60 * 60 * 24)) * (1000 * 60 * 60 * 24))
        ((e.fdiv (1000 * 60 * 60 * 24)) * (1000 * 60 * 60 * 24)))⟩) := by
  refine ⟨?_, ?_, ?_, ?_, ?_, ?_⟩
  · intro hspan
    have hd : (((e - s : Int) : ℚ) / (1000 * 60 * 60)) ≤ 24 := by
      rw [durationHours_le_iff]
      exact_mod_cast hspan
    simp only [getMetrics]
    rw [if_pos trivial, if_pos hd, if_pos rfl]
  · intro hspan1 hspan2
    have hd : ¬ ((((e - s : Int) : ℚ) / (1000 * 60 * 60)) ≤ 24) := by
      rw [durationHours_le_iff]
      intro hc
      have : (e - s) ≤ 24 * (1000 * 60 * 60) := by exact_mod_cast hc
      omega
    have hd2 : (((e - s : Int) : ℚ) / (1000 * 60 * 60)) ≤ 24 * 90 := by
      rw [durationHours_le_iff]
      have : (e - s) ≤ 24 * 90 * (1000 * 60 * 60) := by omega
      exact_mod_cast this
    simp only [getMetrics]
    rw [if_pos trivial, if_neg hd, if_pos hd2,
      if_neg (show ¬ ("hourly" : String) = "raw" from by decide), if_pos rfl]
  · intro hspan
    have hd : ¬ ((((e - s : Int) : ℚ) / (1000 * 60 * 60)) ≤ 24) := by
      rw [durationHours_le_iff]
      intro hc
      have : (e - s) ≤ 24 * (1000 * 60 * 60) := by exact_mod_cast hc
      omega
    have hd2 : ¬ ((((e - s : Int) : ℚ) / (1000 * 60 * 60)) ≤ 24 * 90) := by
      rw [durationHours_le_iff]
      intro hc
      have : (e - s) ≤ 24 * 90 * (1000 * 60 * 60) := by exact_mod_cast hc
      omega
    simp only [getMetrics]
    rw [if_pos trivial, if_neg hd, if_neg hd2,
      if_neg (show ¬ ("daily" : String) = "raw" from by decide),
      if_neg (show ¬ ("daily" : String) = "hourly" from by decide), if_pos rfl]
  · simp only [getMetrics]
    rw [if_neg (show ¬ ("raw" : String) = "auto" from by decide), if_pos rfl]
  · simp only [getMetrics]
    rw [if_neg (show ¬ ("hourly" : String) = "auto" from by decide),
      if_neg (show ¬ ("hourly" : String) = "raw" from by decide), if_pos rfl]
  · simp only [getMetrics]
    rw [if_neg (show ¬ ("daily" : String) = "auto" from by decide),
      if_neg (show ¬ ("daily" : String) = "raw" from by decide),
      if_neg (show ¬ ("daily" : String) = "hourly" from by decide), if_pos rfl]

/-- C2 witness: the three scenario spans — two hours resolves raw, thirty
days resolves hourly, two hundred days resolves daily. -/
theorem claim_C2_witness :
    getMetrics emptyDB "m1" 0 (2 * 3600000) "auto" = .ok ⟨.raw, .rawData []⟩ ∧
    getMetrics emptyDB "m1" 0 (30 * 86400000) "auto" = .ok ⟨.hourly, .hourlyData []⟩ ∧
    getMetrics emptyDB "m1" 0 (200 * 86400000) "auto" = .ok ⟨.daily, .dailyData []⟩ := by
  refine ⟨?_, ?_, ?_⟩
  · have h := (claim_C2_auto_granularity_selection emptyDB "m1" 0 (2 * 3600000)
      (by decide)).1 (by decide)
    rw [h]
    simp [getRawMetrics, emptyDB]
  · have h := (claim_C2_auto_granularity_selection emptyDB "m1" 0 (30 * 86400000)
      (by decide)).2.1 (by decide) (by decide)
    rw [h]
    simp [getHourlyMetrics, emptyDB]
  · have h := (claim_C2_auto_granularity_selection emptyDB "m1" 0 (200 * 86400000)
      (by decide)).2.2.1 (by decide)
    rw [h]
    simp [getDailyMetrics, emptyDB]

/-! ### Registry helpers -/

theorem find?_machine_map (l : List Machine) (mid : String) (f : Machine → Machine)
    (hpres : ∀ mc, (f mc).machine_id = mc.machine_id) :
    (l.map f).find? (fun m => decide (m.machine_id = mid)) =
      (l.find? (fun m => decide (m.machine_id = mid))).map f := by
  rw [List.find?_map]
  have hfn : ((fun m => decide (m.machine_id = mid)) ∘ f) = (fun m => decide (m.machine_id = mid)) := by
    funext mc
    simp [Function.comp, hpres]
  rw [hfn]

/-- `upsertMachine` on an already-registered machine id takes the
`ON CONFLICT ... DO UPDATE` branch: every bound column of the stored row,
metadata included, is overwritten. -/
theorem getMachine_upsert_existing (db : DB) (now : Int) (inp : MachineInput) (mc : Machine)
    (hfound : getMachine db inp.machine_id = some mc) :
    getMachine (upsertMachine db now inp) inp.machine_id = some
      { mc with
        hostname := jsStrOr inp.hostname none
        display_name := jsStrOr inp.display_name (jsStrOr inp.hostname (some inp.machine_id))
        ip_address := jsStrOr inp.ip_address none
        last_seen := match inp.last_seen with
          | some t => if t = 0 then now else t
          | none => now
        metadata := inp.metadata } := by
  unfold getMachine at hfound
  have hpred := List.find?_some hfound
  have hmem : mc ∈ db.machines := List.mem_of_find?_eq_some hfound
  have hany : db.machines.any (fun x => decide (x.machine_id = inp.machine_id)) = true :=
    List.any_eq_true.mpr ⟨mc, hmem, hpred⟩
  have hmcid : mc.machine_id = inp.machine_id := by simpa using hpred
  simp only [upsertMachine]
  rw [if_pos hany]
  unfold getMachine
  rw [find?_machine_map _ _ _ (fun x => by by_cases hx : x.machine_id = inp.machine_id <;> simp [hx])]
  rw [hfound]
  simp [hmcid]

/-! ### C3 — re-registration and metadata -/

def c3db0 : DB :=
  (registerRoute emptyDB 100 "m1" { display_name := some "A", metadata := some "blob" }).1

def c3db1 : DB := (registerRoute c3db0 200 "m1" { display_name := some "B" }).1

/-- C3 counterexample: register m1 with a metadata blob, re-register with a
new display name and no metadata — the stored metadata is nulled out, not
left unchanged. -/
theorem claim_C3_counterexample :
    (getMachine c3db0 "m1").map (fun m => m.metadata) = some (some "blob") ∧
    (getMachine c3db1 "m1").map (fun m => m.display_name) = some (some "B") ∧
    (getMachine c3db1 "m1").map (fun m => m.metadata) = some none := by
  refine ⟨by decide, by decide, by decide⟩

/-- C3 amended: re-registering a known machine with new identity fields and
no metadata payload updates the identity fields but also replaces the stored
metadata wholesale with NULL — the earlier blob is never preserved; the
metadata column always receives exactly the (possibly absent) payload of the
latest registration. -/
theorem claim_C3_amended_reregister_nulls_metadata
    (db : DB) (now : Int) (mid newName : String) (mc : Machine)
    (hfound : getMachine db mid = some mc)
    (hname : newName ≠ "") :
    (getMachine (registerRoute db now mid { display_name := some newName }).1 mid).map
        (fun m => m.display_name) = some (some newName) ∧
    (getMachine (registerRoute db now mid { display_name := some newName }).1 mid).map
        (fun m => m.metadata) = some none := by
  have h := getMachine_upsert_existing db now
    { machine_id := mid
      hostname := jsStrOr none none
      display_name := jsStrOr (some newName) (jsStrOr none (some mid))
      ip_address := jsStrOr none none
      last_seen := some now
      metadata := none } mc hfound
  simp only [registerRoute]
  rw [h]
  simp [jsStrOr, hname]

def c3machine0 : Machine :=
  { machine_id := "m1", hostname := none, display_name := some "A", ip_address := none,
    last_seen := 100, is_active := true, metadata := some "blob" }

theorem claim_C3_amended_witness :
    (getMachine (registerRoute c3db0 200 "m1" { display_name := some "B" }).1 "m1").map
        (fun m => m.display_name) = some (some "B") ∧
    (getMachine (registerRoute c3db0 200 "m1" { display_name := some "B" }).1 "m1").map
        (fun m => m.metadata) = some none :=
  claim_C3_amended_reregister_nulls_metadata c3db0 200 "m1" "B" c3machine0
    (by decide) (by decide)

/-! ### C9 — last-contact is overwritten, not monotone -/

def c9machine : Machine :=
  { machine_id := "m1", hostname := none, display_name := none, ip_address := none,
    last_seen := 1000, is_active := true, metadata := none }

def c9db : DB := { emptyDB with machines := [c9machine] }

def c9dbAfter : DB :=
  match insertMetric c9db (m1metric 500) with
  | .ok d => d
  | .error _ => emptyDB

/-- C9 counterexample: a machine last seen at 1000 receives a sample insert
stamped 500; the stored last-contact drops from 1000 to 500, so it does not
monotonically advance. -/
theorem claim_C9_counterexample :
    insertMetric c9db (m1metric 500) = .ok c9dbAfter ∧
    (getMachine c9db "m1").map (fun m => m.last_seen) = some 1000 ∧
    (getMachine c9dbAfter "m1").map (fun m => m.last_seen) = some 500 ∧
    (500 : Int) < 1000 := by
  refine ⟨rfl, by decide, by decide, by decide⟩

/-- C9 amended: `last_seen` is overwritten, not max-ed — every sample insert
sets the machine's `last_seen` to that sample's own timestamp, whatever the
previously stored value, so a batch carrying older timestamps moves the
last-contact backwards. -/
theorem claim_C9_amended_last_seen_overwritten
    (db : DB) (metric : MetricInput) (mid : String) (mc : Machine) (c : ℚ)
    (hfound : getMachine db mid = some mc)
    (hinpid : metric.machine_id = some mid)
    (hmidne : mid ≠ "")
    (hcpu : metric.cpu_load = some c) :
    ∃ db', insertMetric db metric = .ok db' ∧
      (getMachine db' mid).map (fun m => m.last_seen) = some metric.timestamp := by
  unfold getMachine at hfound
  have hmcid : mc.machine_id = mid := by simpa using List.find?_some hfound
  have hmid : (jsStrOr metric.machine_id (some "localhost")).getD "localhost" = mid := by
    rw [hinpid]
    simp [jsStrOr, hmidne]
  simp only [insertMetric]
  rw [hcpu]
  refine ⟨_, rfl, ?_⟩
  unfold getMachine
  simp only [hmid]
  rw [find?_machine_map _ _ _ (fun x => by by_cases hx : x.machine_id = mid <;> simp [hx])]
  rw [hfound]
  simp [hmcid]

theorem claim_C9_amended_witness :
    ∃ db', insertMetric c9db (m1metric 500) = .ok db' ∧
      (getMachine db' "m1").map (fun m => m.last_seen) = some (500 : Int) :=
  claim_C9_amended_last_seen_overwritten c9db (m1metric 500) "m1" c9machine 50
    (by decide) rfl (by decide) rfl

/-! ### C7 — hour-bucket boundary convention -/

def boundarySample : Sample :=
  { machine_id := "m1", timestamp := 3600000, cpu_load := 50, cpu_temp := none,
    ram_total := 0, ram_used := 0, ram_percent := 0, gpu_utilization := none,
    gpu_temp := none, gpu_mem_used := none, gpu_mem_total := none,
    network_rx_sec := 0, network_tx_sec := 0 }

def c7db : DB := { emptyDB with raw := [boundarySample] }

/-- C7 counterexample: the raw table holds exactly one sample, stamped
exactly on the hour boundary 3600000; `aggregateHourly` counts it both in
the bucket starting at 0 and in the bucket starting at 3600000 (both
summaries report `sample_count = 1` from this single row), so a sample can
contribute to two hour buckets. -/
theorem claim_C7_counterexample :
    c7db.raw = [boundarySample] ∧
    (aggregateHourly c7db "m1" 0).1.map (fun r => r.sample_count) = some 1 ∧
    (aggregateHourly c7db "m1" 3600000).1.map (fun r => r.sample_count) = some 1 := by
  refine ⟨rfl, ?_, ?_⟩ <;>
    simp [aggregateHourly, getRawMetrics, hourlyRowOf, c7db, boundarySample, emptyDB,
      List.mergeSort]

/-- C7 amended: the hourly aggregation reads the closed interval
`[hourStart, hourStart + 1h]` (both bounds inclusive), so a sample can be
read by at most two hour buckets, and by two only when the buckets are
adjacent and the sample sits exactly on the shared hour boundary. -/
theorem claim_C7_amended_boundary_shared_by_two_buckets
    (raws : List Sample) (machineId : String) (h1 h2 : Int) (s : Sample)
    (hal1 : ∃ k : Int, h1 = k * 3600000) (hal2 : ∃ k : Int, h2 = k * 3600000)
    (hlt : h1 < h2)
    (hs1 : s ∈ getRawMetrics raws machineId h1 (h1 + 60 * 60 * 1000))
    (hs2 : s ∈ getRawMetrics raws machineId h2 (h2 + 60 * 60 * 1000)) :
    h2 = h1 + 60 * 60 * 1000 ∧ s.timestamp = h2 := by
  have hm1 : s ∈ raws.filter (fun m =>
      decide (m.machine_id = machineId ∧ h1 ≤ m.timestamp ∧ m.timestamp ≤ h1 + 60 * 60 * 1000)) :=
    (List.mergeSort_perm _ _).mem_iff.mp hs1
  have hm2 : s ∈ raws.filter (fun m =>
      decide (m.machine_id = machineId ∧ h2 ≤ m.timestamp ∧ m.timestamp ≤ h2 + 60 * 60 * 1000)) :=
    (List.mergeSort_perm _ _).mem_iff.mp hs2
  have hp1 := List.of_mem_filter hm1
  have hp2 := List.of_mem_filter hm2
  simp only [decide_eq_true_eq] at hp1 hp2
  obtain ⟨k1, rfl⟩ := hal1
  obtain ⟨k2, rfl⟩ := hal2
  obtain ⟨-, hb1a, hb1b⟩ := hp1
  obtain ⟨-, hb2a, hb2b⟩ := hp2
  omega

theorem claim_C7_amended_witness :
    (3600000 : Int) = 0 + 60 * 60 * 1000 ∧ boundarySample.timestamp = 3600000 :=
  claim_C7_amended_boundary_shared_by_two_buckets [boundarySample] "m1" 0 3600000
    boundarySample ⟨0, by decide⟩ ⟨1, by decide⟩ (by decide)
    (by simp [getRawMetrics, boundarySample, List.mergeSort])
    (by simp [getRawMetrics, boundarySample, List.mergeSort])

/-! ### C8 — hourly recomputation is idempotent -/

theorem upsertHourlyRow_idem (tbl : List HourlyRow) (row : HourlyRow) :
    upsertHourlyRow (upsertHourlyRow tbl row) row = upsertHourlyRow tbl row := by
  unfold upsertHourlyRow
  simp [List.filter_append, List.filter_filter]

/-- C8: re-running `aggregateHourly` for the same machine and bucket over
the unchanged fine data returns the identical row both times (the
computation is deterministic) and the `INSERT OR REPLACE` leaves the stored
state equal after one or two runs (no error path exists). -/
theorem claim_C8_hourly_aggregation_idempotent (db : DB) (machineId : String) (hourStart : Int) :
    (aggregateHourly (aggregateHourly db machineId hourStart).2 machineId hourStart).1
      = (aggregateHourly db machineId hourStart).1 ∧
    (aggregateHourly (aggregateHourly db machineId hourStart).2 machineId hourStart).2
      = (aggregateHourly db machineId hourStart).2 := by
  by_cases hemp :
      (getRawMetrics db.raw machineId hourStart (hourStart + 60 * 60 * 1000)).isEmpty = true
  · have h1 : aggregateHourly db machineId hourStart = (none, db) := by
      simp only [aggregateHourly]
      rw [if_pos hemp]
    rw [h1]
    rw [h1]
    exact ⟨rfl, rfl⟩
  · have h1 : aggregateHourly db machineId hourStart =
        (some (hourlyRowOf machineId hourStart
            (getRawMetrics db.raw machineId hourStart (hourStart + 60 * 60 * 1000))),
          { db with hourly := upsertHourlyRow db.hourly (hourlyRowOf machineId hourStart
            (getRawMetrics db.raw machineId hourStart (hourStart + 60 * 60 * 1000))) }) := by
      simp only [aggregateHourly]
      rw [if_neg hemp]
    rw [h1]
    have h2 : aggregateHourly
        { db with hourly := upsertHourlyRow db.hourly (hourlyRowOf machineId hourStart
          (getRawMetrics db.raw machineId hourStart (hourStart + 60 * 60 * 1000))) }
        machineId hourStart =
        (some (hourlyRowOf machineId hourStart
            (getRawMetrics db.raw machineId hourStart (hourStart + 60 * 60 * 1000))),
          { db with hourly := (upsertHourlyRow (upsertHourlyRow db.hourly
              (hourlyRowOf machineId hourStart
                (getRawMetrics db.raw machineId hourStart (hourStart + 60 * 60 * 1000))))
              (hourlyRowOf machineId hourStart
                (getRawMetrics db.raw machineId hourStart (hourStart + 60 * 60 * 1000)))) }) := by
      simp only [aggregateHourly]
      rw [if_neg hemp]
    rw [h2, upsertHourlyRow_idem]
    exact ⟨rfl, rfl⟩

/-! ### C1 — hourly aggregation computes mean / min / max / count -/

/-- The spec's description of the HourlySummary produced for `samples`:
every avg field is the arithmetic mean of the (non-null) values of the
corresponding sample field, every min/max field is the true minimum/maximum
of those values, and `sample_count` is the number of sample rows. -/
def HourlySummaryMatchesSpec (res : Option HourlyRow) (samples : List Sample) : Prop :=
  ∃ row, res = some row ∧
    row.sample_count = samples.length ∧
    row.cpu_load_avg = meanOf (samples.map (fun s => s.cpu_load)) ∧
    IsMinOf row.cpu_load_min (samples.map (fun s => s.cpu_load)) ∧
    IsMaxOf row.cpu_load_max (samples.map (fun s => s.cpu_load)) ∧
    row.cpu_temp_avg = meanOf (samples.filterMap (fun s => s.cpu_temp)) ∧
    IsMaxOf row.cpu_temp_max (samples.filterMap (fun s => s.cpu_temp)) ∧
    row.ram_percent_avg = meanOf (samples.map (fun s => s.ram_percent)) ∧
    IsMinOf row.ram_percent_min (samples.map (fun s => s.ram_percent)) ∧
    IsMaxOf row.ram_percent_max (samples.map (fun s => s.ram_percent)) ∧
    row.ram_used_avg = meanOf (samples.map (fun s => s.ram_used)) ∧
    row.gpu_util_avg = meanOf (samples.filterMap (fun s => s.gpu_utilization)) ∧
    IsMinOf row.gpu_util_min (samples.filterMap (fun s => s.gpu_utilization)) ∧
    IsMaxOf row.gpu_util_max (samples.filterMap (fun s => s.gpu_utilization)) ∧
    row.gpu_temp_avg = meanOf (samples.filterMap (fun s => s.gpu_temp)) ∧
    IsMaxOf row.gpu_temp_max (samples.filterMap (fun s => s.gpu_temp)) ∧
    row.network_rx_avg = meanOf (samples.map (fun s => s.network_rx_sec)) ∧
    row.network_tx_avg = meanOf (samples.map (fun s => s.network_tx_sec))

theorem hourlyRowOf_matchesSpec (machineId : String) (hourStart : Int)
    {R samples : List Sample} (perm : R.Perm samples) :
    HourlySummaryMatchesSpec (some (hourlyRowOf machineId hourStart R)) samples := by
  refine ⟨hourlyRowOf machineId hourStart R, rfl, ?_, ?_, ?_, ?_, ?_, ?_, ?_, ?_, ?_, ?_,
    ?_, ?_, ?_, ?_, ?_, ?_, ?_⟩
  · simpa [hourlyRowOf] using perm.length_eq
  · simp only [hourlyRowOf]
    rw [jsAvg_eq_meanOf]
    exact meanOf_perm (perm.map _)
  · simp only [hourlyRowOf]
    exact IsMinOf_perm (perm.map _) (jsMin_IsMinOf _)
  · simp only [hourlyRowOf]
    exact IsMaxOf_perm (perm.map _) (jsMax_IsMaxOf _)
  · simp only [hourlyRowOf]
    rw [jsAvg_eq_meanOf]
    exact meanOf_perm (perm.filterMap _)
  · simp only [hourlyRowOf]
    exact IsMaxOf_perm (perm.filterMap _) (jsMax_IsMaxOf _)
  · simp only [hourlyRowOf]
    rw [jsAvg_eq_meanOf]
    exact meanOf_perm (perm.map _)
  · simp only [hourlyRowOf]
    exact IsMinOf_perm (perm.map _) (jsMin_IsMinOf _)
  · simp only [hourlyRowOf]
    exact IsMaxOf_perm (perm.map _) (jsMax_IsMaxOf _)
  · simp only [hourlyRowOf]
    rw [jsAvg_eq_meanOf]
    exact meanOf_perm (perm.map _)
  · simp only [hourlyRowOf]
    rw [jsAvg_eq_meanOf]
    exact meanOf_perm (perm.filterMap _)
  · simp only [hourlyRowOf]
    exact IsMinOf_perm (perm.filterMap _) (jsMin_IsMinOf _)
  · simp only [hourlyRowOf]
    exact IsMaxOf_perm (perm.filterMap _) (jsMax_IsMaxOf _)
  · simp only [hourlyRowOf]
    rw [jsAvg_eq_meanOf]
    exact meanOf_perm (perm.filterMap _)
  · simp only [hourlyRowOf]
    exact IsMaxOf_perm (perm.filterMap _) (jsMax_IsMaxOf _)
  · simp only [hourlyRowOf]
    rw [jsAvg_eq_meanOf]
    exact meanOf_perm (perm.map _)
  · simp only [hourlyRowOf]
    rw [jsAvg_eq_meanOf]
    exact meanOf_perm (perm.map _)

/-- C1: for fine samples all belonging to one machine and one hour bucket,
`aggregateHourly` returns an HourlySummary whose avg fields are the
arithmetic means of the non-null values of the corresponding sample fields,
whose min/max fields are the true minima/maxima of those values, and whose
`sample_count` is the number of inserted sample rows. -/
theorem claim_C1_hourly_aggregation_matches_spec
    (db : DB) (machineId : String) (hourStart : Int) (samples : List Sample)
    (hdb : db.raw = samples)
    (hmach : ∀ s ∈ samples, s.machine_id = machineId)
    (hin : ∀ s ∈ samples, hourStart ≤ s.timestamp ∧ s.timestamp < hourStart + 60 * 60 * 1000)
    (hne : samples ≠ []) :
    HourlySummaryMatchesSpec (aggregateHourly db machineId hourStart).1 samples := by
  subst hdb
  have hcond : ∀ s ∈ db.raw, s.machine_id = machineId ∧
      hourStart ≤ s.timestamp ∧ s.timestamp ≤ hourStart + 60 * 60 * 1000 :=
    fun s hs => ⟨hmach s hs, (hin s hs).1, le_of_lt (hin s hs).2⟩
  have perm := getRawMetrics_perm db.raw machineId hourStart (hourStart + 60 * 60 * 1000) hcond
  have hRne : getRawMetrics db.raw machineId hourStart (hourStart + 60 * 60 * 1000) ≠ [] :=
    fun he => hne ((perm_eq_nil_iff perm).mp he)
  have hemp : (getRawMetrics db.raw machineId hourStart (hourStart + 60 * 60 * 1000)).isEmpty
      = false := by
    cases hq : getRawMetrics db.raw machineId hourStart (hourStart + 60 * 60 * 1000) with
    | nil => exact absurd hq hRne
    | cons a l => rfl
  have hagg : (aggregateHourly db machineId hourStart).1 =
      some (hourlyRowOf machineId hourStart
        (getRawMetrics db.raw machineId hourStart (hourStart + 60 * 60 * 1000))) := by
    simp only [aggregateHourly, hemp, Bool.false_eq_true, if_false]
  rw [hagg]
  exact hourlyRowOf_matchesSpec machineId hourStart perm

def c1sample (t : Int) (c : ℚ) : Sample :=
  { machine_id := "m1", timestamp := t, cpu_load := c, cpu_temp := none, ram_total := 0,
    ram_used := 0, ram_percent := 0, gpu_utilization := none, gpu_temp := none,
    gpu_mem_used := none, gpu_mem_total := none, network_rx_sec := 0, network_tx_sec := 0 }

def c1db : DB := { emptyDB with raw := [c1sample 0 10, c1sample 2000 90, c1sample 4000 50] }

theorem claim_C1_witness :
    HourlySummaryMatchesSpec (aggregateHourly c1db "m1" 0).1
      [c1sample 0 10, c1sample 2000 90, c1sample 4000 50] :=
  claim_C1_hourly_aggregation_matches_spec c1db "m1" 0
    [c1sample 0 10, c1sample 2000 90, c1sample 4000 50]
    rfl (by decide) (by decide) (by decide)

/-! ### C6 — daily rollup -/

theorem foldl_add_eq_sum_nat (l : List Nat) : l.foldl (· + ·) 0 = l.sum := by
  rw [List.sum_eq_foldl]

def c6row (h : Int) (a : ℚ) (c : Nat) : HourlyRow :=
  { machine_id := "m1", hour_start := h, cpu_load_avg := some a, cpu_load_min := none,
    cpu_load_max := none, cpu_temp_avg := none, cpu_temp_max := none, ram_percent_avg := none,
    ram_percent_min := none, ram_percent_max := none, ram_used_avg := none, gpu_util_avg := none,
    gpu_util_min := none, gpu_util_max := none, gpu_temp_avg := none, gpu_temp_max := none,
    network_rx_total := 0, network_tx_total := 0, network_rx_avg := none, network_tx_avg := none,
    sample_count := c }

def c6db : DB := { emptyDB with hourly := [c6row 0 0 1, c6row 3600000 100 3] }

/-- C6 counterexample: two hourly rows of one day carry averages 0 (from 1
sample) and 100 (from 3 samples).  The spec's sample-count-weighted
combination of the per-hour averages is 75, but `aggregateDaily` stores the
unweighted mean 50 — the daily avg fields ignore the hourly sample counts. -/
theorem claim_C6_counterexample :
    (aggregateDaily c6db "m1" 0).1.map (fun r => r.cpu_load_avg) = some (some 50) ∧
    specWeightedMeanBySampleCount [(0, 1), (100, 3)] = some 75 ∧
    (50 : ℚ) ≠ 75 := by
  refine ⟨?_, ?_, by norm_num⟩
  · simp [aggregateDaily, getHourlyMetrics, dailyRowOf, jsAvg, c6db, c6row, emptyDB,
      List.mergeSort]
    norm_num
  · simp [specWeightedMeanBySampleCount]
    norm_num

/-- The behaviour `aggregateDaily` actually implements for the day's hourly
rows: totals and `sample_count` are sums, min/max fold the per-hour
minima/maxima, and every avg field is the plain (unweighted) arithmetic mean
of the non-null per-hour averages. -/
def DailySummaryUnweighted (res : Option DailyRow) (rows : List HourlyRow) : Prop :=
  ∃ row, res = some row ∧
    row.sample_count = (rows.map (fun r => r.sample_count)).sum ∧
    row.network_rx_total = (rows.map (fun r => r.network_rx_total)).sum ∧
    row.network_tx_total = (rows.map (fun r => r.network_tx_total)).sum ∧
    row.cpu_load_avg = meanOf (rows.filterMap (fun r => r.cpu_load_avg)) ∧
    IsMinOf row.cpu_load_min (rows.filterMap (fun r => r.cpu_load_min)) ∧
    IsMaxOf row.cpu_load_max (rows.filterMap (fun r => r.cpu_load_max)) ∧
    row.cpu_temp_avg = meanOf (rows.filterMap (fun r => r.cpu_temp_avg)) ∧
    IsMaxOf row.cpu_temp_max (rows.filterMap (fun r => r.cpu_temp_max)) ∧
    row.ram_percent_avg = meanOf (rows.filterMap (fun r => r.ram_percent_avg)) ∧
    IsMinOf row.ram_percent_min (rows.filterMap (fun r => r.ram_percent_min)) ∧
    IsMaxOf row.ram_percent_max (rows.filterMap (fun r => r.ram_percent_max)) ∧
    row.gpu_util_avg = meanOf (rows.filterMap (fun r => r.gpu_util_avg)) ∧
    IsMinOf row.gpu_util_min (rows.filterMap (fun r => r.gpu_util_min)) ∧
    IsMaxOf row.gpu_util_max (rows.filterMap (fun r => r.gpu_util_max)) ∧
    row.gpu_temp_avg = meanOf (rows.filterMap (fun r => r.gpu_temp_avg)) ∧
    IsMaxOf row.gpu_temp_max (rows.filterMap (fun r => r.gpu_temp_max))

theorem dailyRowOf_matchesUnweighted (machineId : String) (dayStart : Int)
    {R rows : List HourlyRow} (perm : R.Perm rows) :
    DailySummaryUnweighted (some (dailyRowOf machineId dayStart R)) rows := by
  refine ⟨dailyRowOf machineId dayStart R, rfl, ?_, ?_, ?_, ?_, ?_, ?_, ?_, ?_, ?_, ?_,
    ?_, ?_, ?_, ?_, ?_, ?_⟩
  · simp only [dailyRowOf]
    rw [foldl_add_eq_sum_nat]
    exact (perm.map _).sum_eq
  · simp only [dailyRowOf]
    rw [jsSum_eq_sum]
    exact (perm.map _).sum_eq
  · simp only [dailyRowOf]
    rw [jsSum_eq_sum]
    exact (perm.map _).sum_eq
  · simp only [dailyRowOf]
    rw [jsAvg_eq_meanOf]
    exact meanOf_perm (perm.filterMap _)
  · simp only [dailyRowOf]
    exact IsMinOf_perm (perm.filterMap _) (jsMin_IsMinOf _)
  · simp only [dailyRowOf]
    exact IsMaxOf_perm (perm.filterMap _) (jsMax_IsMaxOf _)
  · simp only [dailyRowOf]
    rw [jsAvg_eq_meanOf]
    exact meanOf_perm (perm.filterMap _)
  · simp only [dailyRowOf]
    exact IsMaxOf_perm (perm.filterMap _) (jsMax_IsMaxOf _)
  · simp only [dailyRowOf]
    rw [jsAvg_eq_meanOf]
    exact meanOf_perm (perm.filterMap _)
  · simp only [dailyRowOf]
    exact IsMinOf_perm (perm.filterMap _) (jsMin_IsMinOf _)
  · simp only [dailyRowOf]
    exact IsMaxOf_perm (perm.filterMap _) (jsMax_IsMaxOf _)
  · simp only [dailyRowOf]
    rw [jsAvg_eq_meanOf]
    exact meanOf_perm (perm.filterMap _)
  · simp only [dailyRowOf]
    exact IsMinOf_perm (perm.filterMap _) (jsMin_IsMinOf _)
  · simp only [dailyRowOf]
    exact IsMaxOf_perm (perm.filterMap _) (jsMax_IsMaxOf _)
  · simp only [dailyRowOf]
    rw [jsAvg_eq_meanOf]
    exact meanOf_perm (perm.filterMap _)
  · simp only [dailyRowOf]
    exact IsMaxOf_perm (perm.filterMap _) (jsMax_IsMaxOf _)

/-- C6 amended: for the hourly rows of one machine and one day bucket,
`aggregateDaily` sums the network totals and the sample counts, takes
min-of-minima and max-of-maxima, and sets every avg field to the
**unweighted** arithmetic mean of the non-null per-hour averages — the
per-hour sample counts are not used as weights. -/
theorem claim_C6_amended_daily_rollup_unweighted
    (db : DB) (machineId : String) (dayStart : Int) (rows : List HourlyRow)
    (hdb : db.hourly = rows)
    (hmach : ∀ r ∈ rows, r.machine_id = machineId)
    (hin : ∀ r ∈ rows, dayStart ≤ r.hour_start ∧ r.hour_start < dayStart + 24 * 60 * 60 * 1000)
    (hne : rows ≠ []) :
    DailySummaryUnweighted (aggregateDaily db machineId dayStart).1 rows := by
  subst hdb
  have hcond : ∀ r ∈ db.hourly, r.machine_id = machineId ∧
      dayStart ≤ r.hour_start ∧ r.hour_start ≤ dayStart + 24 * 60 * 60 * 1000 :=
    fun r hr => ⟨hmach r hr, (hin r hr).1, le_of_lt (hin r hr).2⟩
  have perm := getHourlyMetrics_perm db.hourly machineId dayStart
    (dayStart + 24 * 60 * 60 * 1000) hcond
  have hRne : getHourlyMetrics db.hourly machineId dayStart (dayStart + 24 * 60 * 60 * 1000)
      ≠ [] := fun he => hne ((perm_eq_nil_iff perm).mp he)
  have hemp : (getHourlyMetrics db.hourly machineId dayStart
      (dayStart + 24 * 60 * 60 * 1000)).isEmpty = false := by
    cases hq : getHourlyMetrics db.hourly machineId dayStart (dayStart + 24 * 60 * 60 * 1000) with
    | nil => exact absurd hq hRne
    | cons a l => rfl
  have hagg : (aggregateDaily db machineId dayStart).1 =
      some (dailyRowOf machineId dayStart
        (getHourlyMetrics db.hourly machineId dayStart (dayStart + 24 * 60 * 60 * 1000))) := by
    simp only [aggregateDaily, hemp, Bool.false_eq_true, if_false]
  rw [hagg]
  exact dailyRowOf_matchesUnweighted machineId dayStart perm

theorem claim_C6_amended_witness :
    DailySummaryUnweighted (aggregateDaily c6db "m1" 0).1 [c6row 0 0 1, c6row 3600000 100 3] :=
  claim_C6_amended_daily_rollup_unweighted c6db "m1" 0 [c6row 0 0 1, c6row 3600000 100 3]
    rfl (by decide) (by decide) (by decide)

end MachineSite
